import Mathlib

/-!
Shallow embedding of the tool-dispatch core of the cerebras-chatgpt-cli
repository (src/cerebras_cli/tools and the REPL intent matcher), with
theorems checking the natural-language specification against it.

Python conventions used throughout the embedding:
* dynamic values are `PyVal` (scalars used by parameter validation) and
  `PyData` (arbitrary result payloads, including lists/dicts/bytes);
* an exception escaping a Python function is an `Except.error` carrying
  the exception's message (`str(e)`); Python `BaseException`s that are not
  `Exception` subclasses (KeyboardInterrupt, SystemExit) are process-level
  control flow and are outside the model;
* Python dicts are association lists with unique keys, insertion ordered:
  assignment to an existing key replaces in place, a new key appends.
-/

namespace Cerebras

/-- Python scalar values as they reach `ToolParameter.validate`
(tools/base.py): `None`, `bool`, `int`, `float` (modelled as `ℚ`: no claim
here depends on binary floating point), `str`. -/
inductive PyVal where
  | vnone
  | vbool (b : Bool)
  | vint (n : Int)
  | vfloat (q : ℚ)
  | vstr (s : String)
  deriving DecidableEq, Repr

/-- The Python `type` objects used as `ToolParameter.type` by the built-in
tools that the claims mention: `str`, `int`, `float`, `bool`. -/
inductive PyType where
  | tstr
  | tint
  | tfloat
  | tbool
  deriving DecidableEq, Repr

/-- `type.__name__`, as interpolated into validation error messages. -/
def PyType.typeName : PyType → String
  | .tstr => "str"
  | .tint => "int"
  | .tfloat => "float"
  | .tbool => "bool"

/-- Python `isinstance(value, type)`. `bool` is a subclass of `int`, so
`isinstance(True, int)` is true; nothing else cross-checks. -/
def isinstance : PyVal → PyType → Bool
  | .vstr _, .tstr => true
  | .vint _, .tint => true
  | .vbool _, .tint => true
  | .vfloat _, .tfloat => true
  | .vbool _, .tbool => true
  | _, _ => false

/-- Python truthiness (`bool(x)`): `None`/`False`/`0`/`0.0`/`""` are falsy,
everything else is truthy. Never raises for these value shapes. -/
def pyTruthy : PyVal → Bool
  | .vnone => false
  | .vbool b => b
  | .vint n => n != 0
  | .vfloat q => q != 0
  | .vstr s => s != ""

/-- `str(x)` for the modelled scalars. -/
def pyStr : PyVal → String
  | .vnone => "None"
  | .vbool b => if b then "True" else "False"
  | .vint n => toString n
  | .vfloat q => toString q
  | .vstr s => s

/-- Digits of a decimal literal read left to right; `Option.none` when the
list is empty or holds a non-digit. -/
def decDigits : List Char → Option Nat
  | [] => Option.none
  | cs => cs.foldl
      (fun acc c =>
        match acc with
        | Option.none => Option.none
        | Option.some n => if c.isDigit then Option.some (n * 10 + (c.toNat - 48)) else Option.none)
      (Option.some 0)

/-- `int(s)` for a string: optional surrounding whitespace, optional sign,
then decimal digits; anything else raises `ValueError`. (Python also accepts
underscore separators; no input here uses them.) -/
def pyStrToInt (s : String) : Option Int :=
  let cs := s.toList.dropWhile (·.isWhitespace)
  let cs := (cs.reverse.dropWhile (·.isWhitespace)).reverse
  match cs with
  | '-' :: rest => (decDigits rest).map (fun n => -(n : Int))
  | '+' :: rest => (decDigits rest).map (fun n => (n : Int))
  | _ => (decDigits cs).map (fun n => (n : Int))

/-- `float(s)` for a string: optional whitespace and sign, digits, optional
fractional part. (Python also accepts exponents and `inf`/`nan`; no claim
exercises those forms.) -/
def pyStrToFloat (s : String) : Option ℚ :=
  let cs := s.toList.dropWhile (·.isWhitespace)
  let cs := (cs.reverse.dropWhile (·.isWhitespace)).reverse
  let core : List Char → Option ℚ := fun l =>
    match l.splitOn '.' with
    | [whole] => (decDigits whole).map (fun n => (n : ℚ))
    | [whole, frac] =>
        match decDigits whole, decDigits frac with
        | Option.some w, Option.some f =>
            Option.some ((w : ℚ) + (f : ℚ) / ((10 : ℚ) ^ frac.length))
        | _, _ => Option.none
    | _ => Option.none
  match cs with
  | '-' :: rest => (core rest).map (fun q => -q)
  | '+' :: rest => core rest
  | _ => core cs

/-- Calling the type object as a constructor, `self.type(value)` in
`ToolParameter.validate`: the result, or the raised `ValueError`/`TypeError`
message. `str(...)` and `bool(...)` never raise on these shapes — in
particular `bool("false")` is `True` (non-empty string truthiness). -/
def pyCall : PyType → PyVal → Except String PyVal
  | .tstr, v => .ok (.vstr (pyStr v))
  | .tbool, v => .ok (.vbool (pyTruthy v))
  | .tint, v =>
      match v with
      | .vstr s =>
          match pyStrToInt s with
          | Option.some n => .ok (.vint n)
          | Option.none => .error ("invalid literal for int() with base 10: " ++ s)
      | .vint n => .ok (.vint n)
      | .vbool b => .ok (.vint (if b then 1 else 0))
      | .vfloat q => .ok (.vint (Rat.floor q))
      | .vnone => .error "int() argument must be a string, a bytes-like object or a real number, not NoneType"
  | .tfloat, v =>
      match v with
      | .vstr s =>
          match pyStrToFloat s with
          | Option.some q => .ok (.vfloat q)
          | Option.none => .error ("could not convert string to float: " ++ s)
      | .vint n => .ok (.vfloat (n : ℚ))
      | .vbool b => .ok (.vfloat (if b then 1 else 0))
      | .vfloat q => .ok (.vfloat q)
      | .vnone => .error "float() argument must be a string or a real number, not NoneType"

/-- The tool-error taxonomy of tools/base.py; `message` is `str(e)`. -/
inductive ToolError where
  | validationError (msg : String)
  | executionError (msg : String)
  deriving DecidableEq, Repr

def ToolError.message : ToolError → String
  | .validationError m => m
  | .executionError m => m

/-- `ToolParameter` (tools/base.py lines 30-55): name, declared type,
required flag, default (`None` when not given). -/
structure ToolParameter where
  name : String
  type : PyType
  description : String := ""
  required : Bool := true
  default : PyVal := .vnone
  deriving DecidableEq, Repr

/-- `ToolParameter.validate` (tools/base.py lines 39-55): absent (`None`)
value returns the default or raises for a required parameter; a present
value of the declared type passes through; otherwise one constructor call
coerces, and its `ValueError`/`TypeError` becomes a `ToolValidationError`
naming the parameter and the type. -/
def ToolParameter.validate (p : ToolParameter) (value : PyVal) : Except ToolError PyVal :=
  if value = .vnone then
    if p.required then
      .error (.validationError ("Required parameter '" ++ p.name ++ "' is missing"))
    else
      .ok p.default
  else if isinstance value p.type then
    .ok value
  else
    match pyCall p.type value with
    | .ok v => .ok v
    | .error e =>
        .error (.validationError
          ("Parameter '" ++ p.name ++ "' must be of type " ++ p.type.typeName ++ ": " ++ e))

/-- `params.get(name)`: `None` when the key is absent. -/
def lookupParam (params : List (String × PyVal)) (name : String) : PyVal :=
  match params.lookup name with
  | Option.some v => v
  | Option.none => .vnone

/-- `Tool.validate_parameters` (tools/base.py lines 119-132): validates every
declared parameter in order, first failure propagating; unexpected supplied
names are only logged, never an error, and do not reach the result. -/
def validateParameters (decls : List ToolParameter) (params : List (String × PyVal)) :
    Except ToolError (List (String × PyVal)) :=
  match decls with
  | [] => .ok []
  | p :: rest =>
      match p.validate (lookupParam params p.name) with
      | .error e => .error e
      | .ok v =>
          match validateParameters rest params with
          | .error e => .error e
          | .ok vs => .ok ((p.name, v) :: vs)

/-- Python result payloads and metadata values (`ToolResult.data`,
`ToolResult.error`, `ToolResult.metadata` hold arbitrary objects at run
time, including `bytes` from a subprocess). -/
inductive PyData where
  | none
  | bool (b : Bool)
  | int (n : Int)
  | float (q : ℚ)
  | str (s : String)
  | bytes (s : String)
  | list (xs : List PyData)
  | dict (kvs : List (String × PyData))

/-- `ToolResult` (tools/base.py lines 58-64): the dataclass itself does not
enforce any relation between `success` and `error`; `error`'s value is
whatever was assigned (annotated `Optional[str]`, but e.g. raw `bytes`
reach it in shell_tools.py). -/
structure ToolResult where
  success : Bool
  data : PyData := .none
  error : Option PyData := Option.none
  metadata : List (String × PyData) := []

/-- A tool as the registry sees it (`Tool`, tools/base.py): identifying
properties, declared parameters, and the `execute` coroutine — an
`Except.error` is an exception escaping `execute`. -/
structure Tool where
  name : String
  category : String
  description : String := ""
  parameters : List ToolParameter
  exec : List (String × PyVal) → Except String ToolResult

/-- Assignment `d[k] = v` on a Python dict modelled as an association
list: replaces in place when the key exists, appends otherwise. -/
def dictInsert (k : String) (v : α) : List (String × α) → List (String × α)
  | [] => [(k, v)]
  | (k', v') :: rest => if k' = k then (k, v) :: rest else (k', v') :: dictInsert k v rest

/-- `del d[k]` (no-op when absent; callers guard membership). -/
def dictRemove (k : String) : List (String × α) → List (String × α)
  | [] => []
  | (k', v') :: rest => if k' = k then rest else (k', v') :: dictRemove k rest

/-- `list.remove(x)` guarded by `if x in list`: drop the first occurrence. -/
def listRemove (x : String) : List String → List String
  | [] => []
  | y :: rest => if y = x then rest else y :: listRemove x rest

/-- `ToolRegistry` (tools/base.py lines 174-268): the name→tool dict and
the derived category→names index. -/
structure ToolRegistry where
  tools : List (String × Tool) := []
  categories : List (String × List String) := []

/-- `ToolRegistry.register` (tools/base.py lines 181-191): overwrite the
name slot, create the category bucket if missing, append the name to the
bucket if not already present. Note: nothing removes the name from the
bucket of a previously registered tool of the same name. -/
def ToolRegistry.register (r : ToolRegistry) (t : Tool) : ToolRegistry :=
  let tools := dictInsert t.name t r.tools
  let cats0 :=
    if (r.categories.lookup t.category).isSome then r.categories
    else r.categories ++ [(t.category, [])]
  let bucket := (cats0.lookup t.category).getD []
  let cats :=
    if t.name ∈ bucket then cats0
    else dictInsert t.category (bucket ++ [t.name]) cats0
  { tools := tools, categories := cats }

/-- `ToolRegistry.unregister` (tools/base.py lines 193-208): remove the
tool, drop its name from its own category's bucket, delete the bucket when
it becomes empty; `false` when the name was not registered. -/
def ToolRegistry.unregister (r : ToolRegistry) (name : String) : ToolRegistry × Bool :=
  match r.tools.lookup name with
  | Option.none => (r, false)
  | Option.some t =>
      let tools := dictRemove name r.tools
      let cats :=
        match r.categories.lookup t.category with
        | Option.none => r.categories
        | Option.some bucket =>
            let bucket' := listRemove name bucket
            if bucket' = [] then dictRemove t.category r.categories
            else dictInsert t.category bucket' r.categories
      ({ tools := tools, categories := cats }, true)

/-- `ToolRegistry.get_tool`: `dict.get`. -/
def ToolRegistry.getTool (r : ToolRegistry) (name : String) : Option Tool :=
  r.tools.lookup name

/-- `ToolRegistry.execute_tool` (tools/base.py lines 229-246): unknown name
becomes a failure result mentioning "not found"; an exception from
parameter validation or from `execute` is caught (`except Exception`) and
becomes a failure result carrying the exception's message. The function is
total: every input yields a `ToolResult`. -/
def ToolRegistry.executeTool (r : ToolRegistry) (name : String)
    (kwargs : List (String × PyVal)) : ToolResult :=
  match r.getTool name with
  | Option.none =>
      { success := false, error := Option.some (.str ("Tool '" ++ name ++ "' not found")) }
  | Option.some tool =>
      match validateParameters tool.parameters kwargs with
      | .error e =>
          { success := false
            error := Option.some (.str ("Tool execution failed: " ++ e.message)) }
      | .ok validated =>
          match tool.exec validated with
          | .ok result => result
          | .error e =>
              { success := false
                error := Option.some (.str ("Tool execution failed: " ++ e)) }

/-! ### Regular expressions, as the intent matcher uses them

`REPL.detect_and_execute_tools` (cli/repl.py lines 553-654) tests Python
regular expressions against the lowercased input with `re.search`. The
constructs its patterns use: literal characters, `.` (any character but a
newline), `.*`, `[\w]+`, `\s`, `[^\.]+`, alternation, `(?!...)` negative
lookahead, and the `$` anchor. -/

/-- Regular-expression syntax covering the constructs of the intent
patterns. `cls` carries a character-class predicate. -/
inductive RE where
  | eps
  | lit (c : Char)
  | anyChar
  | cls (p : Char → Bool)
  | seq (r1 r2 : RE)
  | alt (r1 r2 : RE)
  | star (r : RE)
  | plus (r : RE)
  | negLook (r : RE)
  | eos

/-- Backtracking matcher in continuation style: `reMatch fuel re s k` is
true when some prefix of `s` matches `re` and `k` accepts the rest. The
fuel only bounds recursion (one unit per syntax node entered plus one per
`star` iteration, each iteration consuming input); `reSearch` supplies
enough for every pattern and input. -/
def reMatch : Nat → RE → List Char → (List Char → Bool) → Bool
  | 0, _, _, _ => false
  | fuel + 1, re, s, k =>
    match re with
    | .eps => k s
    | .lit c =>
        match s with
        | [] => false
        | x :: xs => x == c && k xs
    | .anyChar =>
        match s with
        | [] => false
        | x :: xs => x != '\n' && k xs
    | .cls p =>
        match s with
        | [] => false
        | x :: xs => p x && k xs
    | .seq r1 r2 => reMatch fuel r1 s (fun s2 => reMatch fuel r2 s2 k)
    | .alt r1 r2 => reMatch fuel r1 s k || reMatch fuel r2 s k
    | .star r =>
        k s || reMatch fuel r s
          (fun s2 => decide (s2.length < s.length) && reMatch fuel (.star r) s2 k)
    | .plus r => reMatch fuel r s (fun s2 => reMatch fuel (.star r) s2 k)
    | .negLook r => !(reMatch fuel r s (fun _ => true)) && k s
    | .eos => s.isEmpty && k s

/-- `re.search(pattern, s)`: a match may start at any position. -/
def reSearch (re : RE) (s : String) : Bool :=
  let cs := s.toList
  (List.range (cs.length + 1)).any
    (fun i => reMatch (cs.length + 200) re (cs.drop i) (fun _ => true))

/-- `str.lower()` (the inputs here are ASCII). -/
def pyLower (s : String) : String := ⟨s.toList.map Char.toLower⟩

/-- A sequence of literal characters. -/
def rchars (s : String) : RE :=
  s.toList.foldr (fun c acc => RE.seq (RE.lit c) acc) RE.eps

/-- Right-nested sequencing of a pattern list. -/
def seqs (rs : List RE) : RE := rs.foldr RE.seq RE.eps

/-- `.*` -/
def dotStar : RE := RE.star RE.anyChar

/-- `[\w]` (ASCII: letters, digits, underscore). -/
def wordChar : RE := RE.cls (fun c => c.isAlphanum || c == '_')

/-- `[\w]+` -/
def wplus : RE := RE.plus wordChar

/-- `\s` -/
def wsChar : RE := RE.cls (fun c => c.isWhitespace)

/-- `\.[\w]+` — a dot followed by an extension-like token. -/
def extTail : RE := RE.seq (RE.lit '.') wplus

/-- `[^\.]+` -/
def noDotPlus : RE := RE.plus (RE.cls (fun c => c != '.'))

/-- One row of the pattern table: (regex, tool name, default params). -/
structure IntentRule where
  pattern : RE
  toolName : String
  defaultParams : List (String × PyVal)

/-- Shorthand for a rule with empty default params. -/
def rule0 (re : RE) (tool : String) : IntentRule := ⟨re, tool, []⟩

/-- `file_patterns` (cli/repl.py lines 560-628), in source order. -/
def filePatterns : List IntentRule := [
  rule0 (seqs [rchars "buat", dotStar, rchars "file", dotStar, extTail]) "file_write",
  rule0 (seqs [rchars "create", dotStar, rchars "file", dotStar, extTail]) "file_write",
  rule0 (seqs [rchars "write", dotStar, rchars "to", dotStar, extTail]) "file_write",
  rule0 (seqs [rchars "tulis", dotStar, rchars "ke", dotStar, extTail]) "file_write",
  rule0 (seqs [rchars "simpan", dotStar, rchars "ke", dotStar, extTail]) "file_write",
  rule0 (seqs [rchars "save", dotStar, rchars "to", dotStar, extTail]) "file_write",
  rule0 (seqs [rchars "tambahkan", dotStar, rchars "ke", dotStar, extTail]) "file_write",
  rule0 (seqs [rchars "add", dotStar, rchars "to", dotStar, extTail]) "file_write",
  rule0 (seqs [rchars "buat", dotStar, rchars "file"]) "file_write",
  rule0 (seqs [rchars "create", dotStar, rchars "file"]) "file_write",
  rule0 (seqs [rchars "write", dotStar, rchars "file"]) "file_write",
  rule0 (seqs [rchars "tulis", dotStar, rchars "file"]) "file_write",
  rule0 (seqs [rchars "edit", dotStar, extTail]) "file_edit",
  rule0 (seqs [rchars "ubah", dotStar, extTail]) "file_edit",
  rule0 (seqs [rchars "modify", dotStar, extTail]) "file_edit",
  rule0 (seqs [rchars "update", dotStar, extTail]) "file_edit",
  rule0 (seqs [rchars "ganti", dotStar, rchars "isi", dotStar, extTail]) "file_edit",
  rule0 (seqs [rchars "change", dotStar, rchars "content", dotStar, extTail]) "file_edit",
  rule0 (seqs [rchars "edit", dotStar, rchars "isi", dotStar, extTail]) "file_edit",
  rule0 (seqs [rchars "apa", dotStar, rchars "isi", dotStar, rchars "dari", dotStar, extTail]) "file_read",
  rule0 (seqs [rchars "baca", dotStar, extTail]) "file_read",
  rule0 (seqs [rchars "tampilkan", dotStar, rchars "isi", dotStar, extTail]) "file_read",
  rule0 (seqs [rchars "lihat", dotStar, rchars "isi", dotStar, extTail]) "file_read",
  rule0 (seqs [rchars "show", dotStar, rchars "content", dotStar, extTail]) "file_read",
  rule0 (seqs [rchars "read", dotStar, extTail]) "file_read",
  rule0 (seqs [rchars "open", dotStar, extTail]) "file_read",
  rule0 (seqs [rchars "list", dotStar, rchars "isi", dotStar, rchars "dari", dotStar, extTail]) "file_read",
  rule0 (seqs [rchars "dapat", dotStar, rchars "melihat", dotStar, rchars "isi", dotStar, extTail]) "file_read",
  rule0 (seqs [rchars "can", dotStar, rchars "see", dotStar, rchars "content", dotStar, extTail]) "file_read",
  rule0 (seqs [rchars "what", dotStar, rchars "in", dotStar, extTail]) "file_read",
  rule0 (seqs [rchars "view", dotStar, extTail]) "file_read",
  rule0 (seqs [rchars "cat", dotStar, extTail]) "file_read",
  rule0 (seqs [rchars "apa", dotStar, rchars "kamu", dotStar, rchars "dapat", dotStar, rchars "melihat", dotStar, rchars "isi"]) "file_read",
  rule0 (seqs [rchars "can", dotStar, rchars "you", dotStar, rchars "see", dotStar, rchars "content"]) "file_read",
  rule0 (seqs [rchars "show", dotStar, rchars "me", dotStar, rchars "the", dotStar, rchars "content"]) "file_read",
  rule0 (seqs [rchars "apa", dotStar, rchars "isi", dotStar, rchars "dari", dotStar, rchars "config"]) "file_read",
  rule0 (seqs [rchars "apa", dotStar, rchars "isi", dotStar, rchars "dari", dotStar, rchars "readme"]) "file_read",
  rule0 (seqs [rchars "edit", dotStar, extTail]) "file_edit",
  rule0 (seqs [rchars "ubah", dotStar, extTail]) "file_edit",
  rule0 (seqs [rchars "modify", dotStar, extTail]) "file_edit",
  rule0 (seqs [rchars "update", dotStar, extTail]) "file_edit",
  rule0 (seqs [rchars "change", dotStar, extTail]) "file_edit",
  rule0 (seqs [rchars "ganti", dotStar, rchars "isi", dotStar, extTail]) "file_edit",
  rule0 (rchars "edit file") "file_edit",
  rule0 (rchars "ubah file") "file_edit",
  ⟨seqs [rchars "berapa", dotStar, rchars "file", dotStar, rchars ".py"], "file_list",
    [("pattern", .vstr "*.py"), ("recursive", .vbool true)]⟩,
  ⟨seqs [rchars "list", dotStar, rchars "file", dotStar, rchars ".py"], "file_list",
    [("pattern", .vstr "*.py")]⟩,
  rule0 (seqs [rchars "ada berapa", dotStar, rchars "file"]) "file_list",
  rule0 (seqs [rchars "count", dotStar, rchars "file"]) "file_list",
  rule0 (seqs [rchars "list", dotStar, rchars "file",
    RE.negLook (RE.seq (RE.star wsChar) (RE.lit '.'))]) "file_list",
  rule0 (seqs [rchars "show", dotStar, rchars "file",
    RE.negLook (RE.seq (RE.star wsChar) (RE.lit '.'))]) "file_list",
  ⟨seqs [rchars "cari", dotStar, rchars "file"], "file_list", [("recursive", .vbool true)]⟩,
  rule0 (seqs [rchars "list", dotStar, rchars "isi", dotStar, rchars "dari", dotStar,
    noDotPlus, RE.eos]) "file_list",
  rule0 (seqs [rchars "apa", dotStar, rchars "isi", dotStar, rchars "dari", dotStar,
    noDotPlus, RE.eos]) "file_list"]

/-- `shell_patterns` (cli/repl.py lines 631-634). -/
def shellPatterns : List IntentRule := [
  rule0 (RE.alt (rchars "execute") (RE.alt (rchars "run") (rchars "jalankan"))) "shell_exec",
  rule0 (RE.alt (rchars "command") (rchars "perintah")) "shell_exec"]

/-- `directory_patterns` (cli/repl.py lines 637-640). -/
def directoryPatterns : List IntentRule := [
  ⟨RE.alt (seqs [rchars "berapa", dotStar, rchars "folder"])
     (seqs [rchars "count", dotStar, rchars "director"]), "file_list",
    [("recursive", .vbool true)]⟩,
  rule0 (RE.alt (seqs [rchars "list", dotStar, rchars "director"])
     (seqs [rchars "show", dotStar, rchars "director"])) "file_list"]

/-- `python_patterns` (cli/repl.py lines 643-646). -/
def pythonPatterns : List IntentRule := [
  rule0 (RE.alt (seqs [rchars "execute", dotStar, rchars "python"])
     (seqs [rchars "run", dotStar, rchars "python"])) "python_exec",
  rule0 (RE.alt (rchars "calculate") (RE.alt (rchars "hitung") (rchars "kalkulasi"))) "python_exec"]

/-- `all_patterns = file_patterns + shell_patterns + directory_patterns +
python_patterns` (cli/repl.py line 648). -/
def allPatterns : List IntentRule :=
  filePatterns ++ shellPatterns ++ directoryPatterns ++ pythonPatterns

/-- The detection loop (cli/repl.py lines 650-654): lowercase the input
once, then return the first rule whose pattern `re.search`-matches, or
nothing. -/
def detectTool (rules : List IntentRule) (userInput : String) :
    Option (String × List (String × PyVal)) :=
  match rules.find? (fun rule => reSearch rule.pattern (pyLower userInput)) with
  | Option.some rule => Option.some (rule.toolName, rule.defaultParams)
  | Option.none => Option.none

/-! ### Helper lemmas -/

/-- A suffix of a list is a suffix of anything prepended to it. -/
theorem suffix_append_left {α : Type} {l₁ l₂ : List α} (l : List α) (h : l₁ <:+ l₂) :
    l₁ <:+ l ++ l₂ := by
  obtain ⟨t, rfl⟩ := h
  exact ⟨l ++ t, by simp⟩

/-! ### Association-list lemmas for the registry -/

theorem lookup_dictInsert {α : Type} (k k' : String) (v : α) (l : List (String × α)) :
    (dictInsert k v l).lookup k' = if k' = k then Option.some v else l.lookup k' := by
  induction l with
  | nil =>
      by_cases h : k' = k
      · subst h
        simp [dictInsert, List.lookup]
      · simp [dictInsert, List.lookup, beq_eq_false_iff_ne.mpr h, h]
  | cons a rest ih =>
      obtain ⟨ka, va⟩ := a
      by_cases hk : ka = k
      · subst hk
        by_cases hk' : k' = ka
        · subst hk'
          simp [dictInsert, List.lookup]
        · simp [dictInsert, List.lookup, beq_eq_false_iff_ne.mpr hk', hk']
      · by_cases hk' : k' = ka
        · subst hk'
          have hne : k' ≠ k := fun h => hk (h ▸ rfl)
          simp [dictInsert, hk, List.lookup, hne]
        · simp [dictInsert, hk, List.lookup, beq_eq_false_iff_ne.mpr hk', ih]

theorem lookup_append {α : Type} (k : String) (l l' : List (String × α)) :
    (l ++ l').lookup k =
      match l.lookup k with
      | Option.some v => Option.some v
      | Option.none => l'.lookup k := by
  induction l with
  | nil => simp [List.lookup]
  | cons a rest ih =>
      obtain ⟨ka, va⟩ := a
      by_cases hk : k = ka
      · subst hk
        simp [List.lookup]
      · simp [List.lookup, beq_eq_false_iff_ne.mpr hk, ih]

theorem lookup_dictRemove_ne {α : Type} {k k' : String} (l : List (String × α))
    (h : k' ≠ k) : (dictRemove k l).lookup k' = l.lookup k' := by
  induction l with
  | nil => simp [dictRemove]
  | cons a rest ih =>
      obtain ⟨ka, va⟩ := a
      by_cases hk : ka = k
      · subst hk
        simp [dictRemove, List.lookup, beq_eq_false_iff_ne.mpr h, ih]
      · by_cases hk' : k' = ka
        · subst hk'
          simp [dictRemove, hk, List.lookup]
        · simp [dictRemove, hk, List.lookup, beq_eq_false_iff_ne.mpr hk', ih]

theorem lookup_eq_none_of_not_mem_keys {α : Type} {k : String} {l : List (String × α)}
    (h : k ∉ l.map Prod.fst) : l.lookup k = Option.none := by
  induction l with
  | nil => simp [List.lookup]
  | cons a rest ih =>
      obtain ⟨ka, va⟩ := a
      simp only [List.map, List.mem_cons] at h
      push_neg at h
      simp [List.lookup, beq_eq_false_iff_ne.mpr h.1, ih h.2]

theorem mem_keys_of_lookup_some {α : Type} {k : String} {v : α} {l : List (String × α)}
    (h : l.lookup k = Option.some v) : k ∈ l.map Prod.fst := by
  by_contra hmem
  rw [lookup_eq_none_of_not_mem_keys hmem] at h
  exact Option.noConfusion h

theorem lookup_dictRemove_self {α : Type} {k : String} {l : List (String × α)}
    (hnd : (l.map Prod.fst).Nodup) : (dictRemove k l).lookup k = Option.none := by
  induction l with
  | nil => simp [dictRemove, List.lookup]
  | cons a rest ih =>
      obtain ⟨ka, va⟩ := a
      simp only [List.map, List.nodup_cons] at hnd
      by_cases hk : ka = k
      · subst hk
        simp only [dictRemove, if_pos rfl]
        exact lookup_eq_none_of_not_mem_keys hnd.1
      · have hne : k ≠ ka := fun h => hk h.symm
        simp [dictRemove, hk, List.lookup, beq_eq_false_iff_ne.mpr hne, ih hnd.2]

theorem mem_keys_dictInsert {α : Type} {c k : String} {v : α} {l : List (String × α)}
    (h : c ∈ (dictInsert k v l).map Prod.fst) : c = k ∨ c ∈ l.map Prod.fst := by
  induction l with
  | nil => simpa [dictInsert] using h
  | cons a rest ih =>
      obtain ⟨ka, va⟩ := a
      by_cases hk : ka = k
      · subst hk
        simpa [dictInsert] using h
      · simp only [dictInsert, if_neg hk, List.map, List.mem_cons] at h
        rcases h with h | h
        · exact Or.inr (by simp [h])
        · rcases ih h with h' | h'
          · exact Or.inl h'
          · exact Or.inr (by simp [h'])

theorem nodup_keys_dictInsert {α : Type} (k : String) (v : α) {l : List (String × α)}
    (hnd : (l.map Prod.fst).Nodup) : ((dictInsert k v l).map Prod.fst).Nodup := by
  induction l with
  | nil => simp [dictInsert]
  | cons a rest ih =>
      obtain ⟨ka, va⟩ := a
      simp only [List.map, List.nodup_cons] at hnd
      by_cases hk : ka = k
      · subst hk
        simp only [dictInsert, if_pos rfl, List.map, List.nodup_cons]
        exact ⟨hnd.1, hnd.2⟩
      · simp only [dictInsert, if_neg hk, List.map, List.nodup_cons]
        refine ⟨fun hmem => ?_, ih hnd.2⟩
        rcases mem_keys_dictInsert hmem with h | h
        · exact hk h
        · exact hnd.1 h

theorem keys_dictRemove_sublist {α : Type} (k : String) (l : List (String × α)) :
    ((dictRemove k l).map Prod.fst).Sublist (l.map Prod.fst) := by
  induction l with
  | nil => simp [dictRemove]
  | cons a rest ih =>
      obtain ⟨ka, va⟩ := a
      by_cases hk : ka = k
      · subst hk
        simp only [dictRemove, if_pos rfl, List.map]
        exact List.sublist_cons_self _ _
      · simp only [dictRemove, if_neg hk, List.map]
        exact List.Sublist.cons₂ _ ih

theorem listRemove_sublist (x : String) (l : List String) : (listRemove x l).Sublist l := by
  induction l with
  | nil => simp [listRemove]
  | cons a rest ih =>
      by_cases hk : a = x
      · simp only [listRemove, if_pos hk]
        exact List.sublist_cons_self _ _
      · simp only [listRemove, if_neg hk]
        exact List.Sublist.cons₂ _ ih

theorem mem_of_mem_listRemove {x n : String} {l : List String}
    (h : n ∈ listRemove x l) : n ∈ l :=
  (listRemove_sublist x l).mem h

theorem ne_of_mem_listRemove {x n : String} {l : List String} (hnd : l.Nodup)
    (h : n ∈ listRemove x l) : n ≠ x := by
  induction l with
  | nil => simp [listRemove] at h
  | cons a rest ih =>
      simp only [List.nodup_cons] at hnd
      by_cases hk : a = x
      · subst hk
        simp only [listRemove, if_pos rfl] at h
        intro hnx
        exact hnd.1 (hnx ▸ h)
      · simp only [listRemove, if_neg hk, List.mem_cons] at h
        rcases h with h | h
        · exact h ▸ hk
        · exact ih hnd.2 h

/-! ### The category-index invariant (claim C5) -/

/-- The spec's registry invariant: every name in a category bucket maps to
a registered tool whose `.category` equals that bucket's key. -/
def catInvariant (r : ToolRegistry) : Prop :=
  ∀ cat bucket, r.categories.lookup cat = Option.some bucket → ∀ n ∈ bucket,
    ∃ t, r.tools.lookup n = Option.some t ∧ t.category = cat

/-- Well-formedness the reachable registry states enjoy: category keys are
unique, buckets hold no duplicate names, and the category index satisfies
the invariant. -/
structure RegWF (r : ToolRegistry) : Prop where
  catKeys : (r.categories.map Prod.fst).Nodup
  buckets : ∀ cat bucket, r.categories.lookup cat = Option.some bucket → bucket.Nodup
  inv : catInvariant r

/-- A register or unregister call on the registry. -/
inductive RegOp where
  | reg (t : Tool)
  | unreg (name : String)

def applyOp (r : ToolRegistry) : RegOp → ToolRegistry
  | .reg t => r.register t
  | .unreg n => (r.unregister n).1

def applyOps (r : ToolRegistry) : List RegOp → ToolRegistry
  | [] => r
  | op :: ops => applyOps (applyOp r op) ops

/-- Along the sequence, no register call replaces an existing name with a
tool of a different category (the condition the counterexample shows to be
necessary). -/
def SameCategoryOnOverwrite : ToolRegistry → List RegOp → Prop
  | _, [] => True
  | r, op :: ops =>
      (∀ t t', op = .reg t → r.tools.lookup t.name = Option.some t' →
        t'.category = t.category) ∧
      SameCategoryOnOverwrite (applyOp r op) ops

theorem lookup_isSome_of_mem_keys {α : Type} {k : String} {l : List (String × α)}
    (h : k ∈ l.map Prod.fst) : (l.lookup k).isSome := by
  induction l with
  | nil => simp at h
  | cons a rest ih =>
      obtain ⟨ka, va⟩ := a
      by_cases hk : k = ka
      · subst hk
        simp [List.lookup]
      · simp only [List.map, List.mem_cons] at h
        rcases h with h | h
        · exact absurd h hk
        · simp [List.lookup, beq_eq_false_iff_ne.mpr hk, ih h]

theorem not_mem_keys_of_lookup_none {α : Type} {k : String} {l : List (String × α)}
    (h : l.lookup k = Option.none) : k ∉ l.map Prod.fst := by
  intro hmem
  have := lookup_isSome_of_mem_keys hmem
  rw [h] at this
  exact Bool.noConfusion this

/-- What `register` does to the name→tool dict: overwrite-or-add. -/
theorem register_tools_lookup (r : ToolRegistry) (t : Tool) (n : String) :
    (r.register t).tools.lookup n =
      if n = t.name then Option.some t else r.tools.lookup n := by
  simp only [ToolRegistry.register]
  exact lookup_dictInsert _ _ _ _

/-- What `register` does to the category index, seen through `lookup`: the
tool's category bucket gains the tool's name (unless already present, and
creating the bucket when absent); every other bucket is untouched. -/
theorem register_categories_lookup (r : ToolRegistry) (t : Tool) (c : String) :
    (r.register t).categories.lookup c =
      if c = t.category then
        Option.some
          (if t.name ∈ (r.categories.lookup t.category).getD [] then
            (r.categories.lookup t.category).getD []
          else (r.categories.lookup t.category).getD [] ++ [t.name])
      else r.categories.lookup c := by
  rcases hcat : r.categories.lookup t.category with _ | bucket
  · have hfresh : ((r.categories ++ [(t.category, [])]).lookup t.category) =
        Option.some ([] : List String) := by
      rw [lookup_append, hcat]
      simp [List.lookup]
    have h0 : (r.register t).categories =
        dictInsert t.category [t.name] (r.categories ++ [(t.category, [])]) := by
      simp [ToolRegistry.register, hcat, hfresh]
    rw [h0, lookup_dictInsert]
    by_cases hc : c = t.category
    · simp [hc, hcat]
    · rw [if_neg hc, if_neg hc, lookup_append]
      rcases hcc : r.categories.lookup c with _ | b
      · simp [List.lookup, beq_eq_false_iff_ne.mpr hc]
      · simp
  · have hsome : (r.categories.lookup t.category).isSome = true := by simp [hcat]
    by_cases hmem : t.name ∈ bucket
    · have h0 : (r.register t).categories = r.categories := by
        simp [ToolRegistry.register, hcat, hmem]
      rw [h0]
      by_cases hc : c = t.category
      · simp [hc, hcat, hmem]
      · simp [hc]
    · have h0 : (r.register t).categories =
          dictInsert t.category (bucket ++ [t.name]) r.categories := by
        simp [ToolRegistry.register, hcat, hmem]
      rw [h0, lookup_dictInsert]
      by_cases hc : c = t.category
      · simp [hc, hcat, hmem]
      · simp [hc]

/-- Registering a tool whose category does not change on overwrite keeps
the registry well formed. -/
theorem register_preserves_WF {r : ToolRegistry} (t : Tool) (hwf : RegWF r)
    (hsame : ∀ t', r.tools.lookup t.name = Option.some t' → t'.category = t.category) :
    RegWF (r.register t) := by
  refine ⟨?_, ?_, ?_⟩
  · -- category keys stay nodup
    rcases hcat : r.categories.lookup t.category with _ | bucket
    · have hnotin : t.category ∉ r.categories.map Prod.fst :=
        not_mem_keys_of_lookup_none hcat
      have hfresh : ((r.categories ++ [(t.category, [])]).lookup t.category) =
          Option.some ([] : List String) := by
        rw [lookup_append, hcat]
        simp [List.lookup]
      have h0 : (r.register t).categories =
          dictInsert t.category [t.name] (r.categories ++ [(t.category, [])]) := by
        simp [ToolRegistry.register, hcat, hfresh]
      rw [h0]
      refine nodup_keys_dictInsert _ _ ?_
      rw [List.map_append]
      rw [List.nodup_append]
      refine ⟨hwf.catKeys, List.nodup_singleton _, ?_⟩
      intro a ha hb
      simp only [List.map, List.mem_singleton] at hb
      exact hnotin (hb ▸ ha)
    · by_cases hmem : t.name ∈ bucket
      · have h0 : (r.register t).categories = r.categories := by
          simp [ToolRegistry.register, hcat, hmem]
        rw [h0]
        exact hwf.catKeys
      · have h0 : (r.register t).categories =
            dictInsert t.category (bucket ++ [t.name]) r.categories := by
          simp [ToolRegistry.register, hcat, hmem]
        rw [h0]
        exact nodup_keys_dictInsert _ _ hwf.catKeys
  · -- buckets stay nodup
    intro c b hc
    rw [register_categories_lookup] at hc
    by_cases hcc : c = t.category
    · rw [if_pos hcc] at hc
      injection hc with hb
      have hnd0 : ((r.categories.lookup t.category).getD []).Nodup := by
        rcases hcat : r.categories.lookup t.category with _ | bb
        · simp
        · simpa using hwf.buckets t.category bb hcat
      by_cases hmem : t.name ∈ (r.categories.lookup t.category).getD []
      · rw [if_pos hmem] at hb
        exact hb ▸ hnd0
      · rw [if_neg hmem] at hb
        rw [← hb, List.nodup_append]
        refine ⟨hnd0, List.nodup_singleton _, ?_⟩
        intro a ha hb'
        simp only [List.mem_singleton] at hb'
        exact hmem (hb' ▸ ha)
    · rw [if_neg hcc] at hc
      exact hwf.buckets c b hc
  · -- the category-index invariant
    intro c b hc n hn
    rw [register_categories_lookup] at hc
    by_cases hcc : c = t.category
    · rw [if_pos hcc] at hc
      injection hc with hb
      have hn' : n ∈ (r.categories.lookup t.category).getD [] ∨ n = t.name := by
        by_cases hmem : t.name ∈ (r.categories.lookup t.category).getD []
        · rw [if_pos hmem] at hb
          exact Or.inl (hb ▸ hn)
        · rw [if_neg hmem] at hb
          rcases List.mem_append.mp (hb ▸ hn) with h | h
          · exact Or.inl h
          · exact Or.inr (List.mem_singleton.mp h)
      rcases hn' with hn' | hn'
      · rcases hcat : r.categories.lookup t.category with _ | bb
        · rw [hcat] at hn'
          simp at hn'
        · rw [hcat] at hn'
          simp only [Option.getD_some] at hn'
          obtain ⟨t', hl, hcat'⟩ := hwf.inv t.category bb hcat n hn'
          rw [register_tools_lookup]
          by_cases hnt : n = t.name
          · exact ⟨t, by rw [if_pos hnt], hcc.symm⟩
          · exact ⟨t', by rw [if_neg hnt]; exact hl, hcc ▸ hcat'⟩
      · rw [register_tools_lookup]
        exact ⟨t, by rw [if_pos hn'], hcc.symm⟩
    · rw [if_neg hcc] at hc
      obtain ⟨t', hl, hcat'⟩ := hwf.inv c b hc n hn
      rw [register_tools_lookup]
      by_cases hnt : n = t.name
      · exfalso
        apply hcc
        rw [← hcat', hsame t' (hnt ▸ hl)]
      · exact ⟨t', by rw [if_neg hnt]; exact hl, hcat'⟩

/-- Unregistering keeps the registry well formed. -/
theorem unregister_preserves_WF {r : ToolRegistry} (name : String) (hwf : RegWF r) :
    RegWF (r.unregister name).1 := by
  rcases hfound : r.tools.lookup name with _ | t
  · have h0 : (r.unregister name).1 = r := by
      simp [ToolRegistry.unregister, hfound]
    rw [h0]
    exact hwf
  · have htools : (r.unregister name).1.tools = dictRemove name r.tools := by
      simp [ToolRegistry.unregister, hfound]
    rcases hcat : r.categories.lookup t.category with _ | bucket
    · have h0 : (r.unregister name).1.categories = r.categories := by
        simp [ToolRegistry.unregister, hfound, hcat]
      refine ⟨h0 ▸ hwf.catKeys, fun c b hc => hwf.buckets c b (h0 ▸ hc), ?_⟩
      intro c b hc n hn
      rw [h0] at hc
      obtain ⟨t', hl, hcat'⟩ := hwf.inv c b hc n hn
      rw [htools]
      by_cases hnn : n = name
      · exfalso
        rw [hnn, hfound] at hl
        injection hl with ht'
        rw [← ht'] at hcat'
        rw [hcat'] at hcat
        rw [hc] at hcat
        exact Option.noConfusion hcat
      · exact ⟨t', by rw [lookup_dictRemove_ne _ hnn]; exact hl, hcat'⟩
    · by_cases hempty : listRemove name bucket = []
      · have h0 : (r.unregister name).1.categories = dictRemove t.category r.categories := by
          simp [ToolRegistry.unregister, hfound, hcat, hempty]
        refine ⟨?_, ?_, ?_⟩
        · rw [h0]
          exact (keys_dictRemove_sublist _ _).nodup hwf.catKeys
        · intro c b hc
          rw [h0] at hc
          by_cases hcc : c = t.category
          · rw [hcc, lookup_dictRemove_self hwf.catKeys] at hc
            exact Option.noConfusion hc
          · exact hwf.buckets c b (by rw [← lookup_dictRemove_ne _ hcc]; exact hc)
        · intro c b hc n hn
          rw [h0] at hc
          by_cases hcc : c = t.category
          · rw [hcc, lookup_dictRemove_self hwf.catKeys] at hc
            exact Option.noConfusion hc
          · rw [lookup_dictRemove_ne _ hcc] at hc
            obtain ⟨t', hl, hcat'⟩ := hwf.inv c b hc n hn
            rw [htools]
            by_cases hnn : n = name
            · exfalso
              rw [hnn, hfound] at hl
              injection hl with ht'
              exact hcc (by rw [← hcat', ← ht'])
            · exact ⟨t', by rw [lookup_dictRemove_ne _ hnn]; exact hl, hcat'⟩
      · have h0 : (r.unregister name).1.categories =
            dictInsert t.category (listRemove name bucket) r.categories := by
          simp [ToolRegistry.unregister, hfound, hcat, hempty]
        refine ⟨?_, ?_, ?_⟩
        · rw [h0]
          exact nodup_keys_dictInsert _ _ hwf.catKeys
        · intro c b hc
          rw [h0, lookup_dictInsert] at hc
          by_cases hcc : c = t.category
          · rw [if_pos hcc] at hc
            injection hc with hb
            exact hb ▸ ((listRemove_sublist _ _).nodup (hwf.buckets t.category bucket hcat))
          · rw [if_neg hcc] at hc
            exact hwf.buckets c b hc
        · intro c b hc n hn
          rw [h0, lookup_dictInsert] at hc
          by_cases hcc : c = t.category
          · rw [if_pos hcc] at hc
            injection hc with hb
            have hnb : n ∈ listRemove name bucket := hb ▸ hn
            have hnn : n ≠ name :=
              ne_of_mem_listRemove (hwf.buckets t.category bucket hcat) hnb
            obtain ⟨t', hl, hcat'⟩ :=
              hwf.inv t.category bucket hcat n (mem_of_mem_listRemove hnb)
            rw [htools]
            exact ⟨t', by rw [lookup_dictRemove_ne _ hnn]; exact hl, hcc ▸ hcat'⟩
          · rw [if_neg hcc] at hc
            obtain ⟨t', hl, hcat'⟩ := hwf.inv c b hc n hn
            rw [htools]
            by_cases hnn : n = name
            · exfalso
              rw [hnn, hfound] at hl
              injection hl with ht'
              exact hcc (by rw [← hcat', ← ht'])
            · exact ⟨t', by rw [lookup_dictRemove_ne _ hnn]; exact hl, hcat'⟩

/-! ### FileReadTool (tools/file_tools.py lines 50-104)

The filesystem is an oracle: a `FileStat` records what the code's checks
and its one read would observe at the (resolved) path. `readPerformed`
records whether the embedded execution reached the `aiofiles.open`/`read`
step — the claim C7 is about that step never being reached for an
oversized file. -/

/-- What reading the file would yield: the full decoded content, a
`UnicodeDecodeError` (message), or another I/O exception (message). -/
inductive ReadErr where
  | decodeErr (msg : String)
  | otherErr (msg : String)

/-- The filesystem facts `file_read` consults about one resolved path. -/
structure FileStat where
  pathExists : Bool
  isFile : Bool
  size : Nat
  mtime : ℚ
  mimeType : Option String
  readResult : Except ReadErr String

/-- `mimetypes.guess_type` result as stored in metadata. -/
def mimeData : Option String → PyData
  | Option.some m => .str m
  | Option.none => .none

/-- A tool result paired with whether the file content was read. -/
structure FileReadOutcome where
  result : ToolResult
  readPerformed : Bool

/-- `FileReadTool.execute`: existence, regular-file and size checks in
order, each failing without reading; then the read, whose decode error is
reported specifically; on success the full content with path/size/mime/
mtime/encoding metadata. -/
def fileReadExecute (st : FileStat) (path encoding : String) (maxSize : Nat) :
    FileReadOutcome :=
  if st.pathExists = false then
    ⟨{ success := false, error := Option.some (.str ("File not found: " ++ path)) }, false⟩
  else if st.isFile = false then
    ⟨{ success := false, error := Option.some (.str ("Path is not a file: " ++ path)) }, false⟩
  else if st.size > maxSize then
    ⟨{ success := false
       error := Option.some (.str ("File too large: " ++ toString st.size ++
         " bytes (max: " ++ toString maxSize ++ ")")) }, false⟩
  else
    match st.readResult with
    | .error (.decodeErr m) =>
        ⟨{ success := false
           error := Option.some (.str ("Failed to decode file with encoding " ++
             encoding ++ ": " ++ m)) }, true⟩
    | .error (.otherErr m) =>
        ⟨{ success := false
           error := Option.some (.str ("Failed to read file: " ++ m)) }, true⟩
    | .ok content =>
        ⟨{ success := true
           data := .str content
           metadata := [("path", .str path), ("size", .int st.size),
             ("mime_type", mimeData st.mimeType), ("modified", .float st.mtime),
             ("encoding", .str encoding)] }, true⟩

/-! ### ShellCommandTool (tools/shell_tools.py lines 64-133)

The subprocess is an oracle `ProcOutcome`: either `communicate` times out,
or the process completes with a return code and the captured streams
(`Option.none` when no pipe was attached, i.e. `capture_output=False`).
`killedProcess` records whether the timeout path called `process.kill()`. -/

/-- Outcome of awaiting the spawned process. -/
inductive ProcOutcome where
  | timeout
  | done (returncode : Int) (stdout stderr : Option String)

/-- A tool result paired with whether the process was forcibly killed. -/
structure ShellOutcome where
  result : ToolResult
  killedProcess : Bool

/-- The part of `ShellCommandTool.execute` after the working-directory
check: timeout kills the process and reports the dedicated message (no
data, no metadata); completion reports success exactly for return code 0,
the decoded streams and return code as data, and — the slip behind C4 —
`error := stderr if returncode != 0 else None` with the *raw* (bytes,
possibly absent) stderr. -/
def shellRun (processCwd : String) (pid : Int) (proc : ProcOutcome) (command : String)
    (workDir : Option String) (timeout : ℚ) : ShellOutcome :=
  match proc with
  | .timeout =>
      ⟨{ success := false
         error := Option.some (.str ("Command timed out after " ++ toString timeout ++
           " seconds")) }, true⟩
  | .done rc out err =>
      ⟨{ success := rc == 0
         data := .dict [("stdout", .str (out.getD "")), ("stderr", .str (err.getD "")),
           ("returncode", .int rc)]
         error := if rc ≠ 0 then err.map PyData.bytes else Option.none
         metadata := [("command", .str command), ("cwd", .str (workDir.getD processCwd)),
           ("timeout", .float timeout), ("pid", .int pid)] }, false⟩

/-- `ShellCommandTool.execute`: `if cwd:` (Python truthiness — `None` and
`""` both skip the override) validates the working directory through the
`dirOk` filesystem oracle, then runs the process. The `shell` flag only
selects the spawn primitive and does not change the observable outcome
here. -/
def shellExecute (dirOk : String → Bool) (processCwd : String) (pid : Int)
    (proc : ProcOutcome) (command : String) (cwd : Option String) (timeout : ℚ)
    (captureOutput shell : Bool) : ShellOutcome :=
  let workDir : Option String :=
    match cwd with
    | Option.some c => if c = "" then Option.none else Option.some c
    | Option.none => Option.none
  match workDir with
  | Option.some c =>
      if dirOk c = false then
        ⟨{ success := false
           error := Option.some (.str ("Working directory not found: " ++ c)) }, false⟩
      else shellRun processCwd pid proc command (Option.some c) timeout
  | Option.none => shellRun processCwd pid proc command Option.none timeout

/-! ### CodeAnalysisTool (tools/code_tools.py lines 59-150 and 316-427)

Python's `ast.parse` is standard-library code, not repository code: it is
an oracle (`parse` in `CodeAnalysisCtx`), producing either a body of
statements in the AST subset below, a `SyntaxError` (line/offset/message/
text), or another exception. The AST subset carries exactly what
`CodeAnalyzer` extracts; decorator lists and docstrings (always present as
keys in the source's dicts) are not modelled — no claim concerns them. -/

/-- Python AST statements as `CodeAnalyzer` distinguishes them. `assign`
carries the `ast.Name` targets only (the visitor ignores other target
shapes); the four branching constructs carry their child statements in
visit order. -/
inductive PyStmt where
  | functionDef (name : String) (lineno : Nat) (args : List String) (body : List PyStmt)
  | asyncFunctionDef (name : String) (lineno : Nat) (args : List String) (body : List PyStmt)
  | classDef (name : String) (lineno : Nat) (body : List PyStmt)
  | importStmt (lineno : Nat) (names : List (String × Option String))
  | importFrom (lineno : Nat) (module : Option String) (names : List (String × Option String))
  | assign (lineno : Nat) (targets : List String)
  | ifStmt (children : List PyStmt)
  | forStmt (children : List PyStmt)
  | whileStmt (children : List PyStmt)
  | tryStmt (children : List PyStmt)
  | passStmt

/-- One collected function: name, line, argument names, and whether the
`'async': True` key is added (async defs only). -/
structure FuncInfo where
  name : String
  line : Nat
  args : List String
  isAsync : Bool

/-- One collected class: name and line. -/
structure ClassInfo where
  name : String
  line : Nat

/-- One collected import (`module` is set for from-imports only). -/
structure ImportInfo where
  module : Option String
  name : String
  asname : Option String
  line : Nat
  isFrom : Bool

/-- The `CodeAnalyzer` visitor's mutable state. -/
structure AnalyzerState where
  functions : List FuncInfo := []
  classes : List ClassInfo := []
  imports : List ImportInfo := []
  vars : List (String × Nat) := []
  maxDepth : Nat := 0
  currentDepth : Nat := 0
  complexity : Nat := 0

mutual

/-- `CodeAnalyzer.visit_*`: collect the node's record, and for the nesting
constructs bump the depth around the children; If/For/While/Try add one to
the cyclomatic-complexity counter. -/
def visitStmt (st : AnalyzerState) : PyStmt → AnalyzerState
  | .functionDef name lineno args body =>
      let st1 := { st with functions := st.functions ++ [FuncInfo.mk name lineno args false] }
      let st2 := { st1 with currentDepth := st1.currentDepth + 1
                            maxDepth := max st1.maxDepth (st1.currentDepth + 1) }
      let st3 := visitBody st2 body
      { st3 with currentDepth := st3.currentDepth - 1 }
  | .asyncFunctionDef name lineno args body =>
      let st1 := { st with functions := st.functions ++ [FuncInfo.mk name lineno args true] }
      let st2 := { st1 with currentDepth := st1.currentDepth + 1
                            maxDepth := max st1.maxDepth (st1.currentDepth + 1) }
      let st3 := visitBody st2 body
      { st3 with currentDepth := st3.currentDepth - 1 }
  | .classDef name lineno body =>
      let st1 := { st with classes := st.classes ++ [ClassInfo.mk name lineno] }
      let st2 := { st1 with currentDepth := st1.currentDepth + 1
                            maxDepth := max st1.maxDepth (st1.currentDepth + 1) }
      let st3 := visitBody st2 body
      { st3 with currentDepth := st3.currentDepth - 1 }
  | .importStmt lineno names =>
      { st with imports := st.imports ++
          names.map (fun nv => ImportInfo.mk Option.none nv.1 nv.2 lineno false) }
  | .importFrom lineno module names =>
      { st with imports := st.imports ++
          names.map (fun nv => ImportInfo.mk module nv.1 nv.2 lineno true) }
  | .assign lineno targets =>
      { st with vars := st.vars ++ targets.map (fun t => (t, lineno)) }
  | .ifStmt children => visitBody { st with complexity := st.complexity + 1 } children
  | .forStmt children => visitBody { st with complexity := st.complexity + 1 } children
  | .whileStmt children => visitBody { st with complexity := st.complexity + 1 } children
  | .tryStmt children => visitBody { st with complexity := st.complexity + 1 } children
  | .passStmt => st

/-- `generic_visit` over a statement list, left to right. -/
def visitBody (st : AnalyzerState) : List PyStmt → AnalyzerState
  | [] => st
  | s :: rest => visitBody (visitStmt st s) rest

end

/-- What `ast.parse(source)` can do. -/
inductive ParseOutcome where
  | ok (body : List PyStmt)
  | syntaxErr (lineno : Option Nat) (offset : Option Nat) (msg : String) (text : Option String)
  | otherErr (msg : String)

def optNatData : Option Nat → PyData
  | Option.some n => .int n
  | Option.none => .none

def optStrData : Option String → PyData
  | Option.some s => .str s
  | Option.none => .none

/-- One entry of `analysis['functions']`. -/
def funcData (f : FuncInfo) : PyData :=
  .dict ([("name", .str f.name), ("line", .int f.line),
    ("args", .list (f.args.map PyData.str))] ++
    (if f.isAsync then [("async", .bool true)] else []))

/-- One entry of `analysis['classes']`. -/
def classData (c : ClassInfo) : PyData :=
  .dict [("name", .str c.name), ("line", .int c.line)]

/-- One entry of `analysis['imports']`. -/
def importData (i : ImportInfo) : PyData :=
  if i.isFrom then
    .dict [("module", optStrData i.module), ("name", .str i.name),
      ("asname", optStrData i.asname), ("line", .int i.line), ("type", .str "from_import")]
  else
    .dict [("name", .str i.name), ("asname", optStrData i.asname),
      ("line", .int i.line), ("type", .str "import")]

/-- One entry of `analysis['variables']`. -/
def varData : String × Nat → PyData
  | (n, l) => .dict [("name", .str n), ("line", .int l), ("type", .str "assignment")]

/-- `analysis['complexity']` after a successful parse. -/
def complexityData (st : AnalyzerState) : PyData :=
  .dict [("function_count", .int st.functions.length),
    ("class_count", .int st.classes.length),
    ("import_count", .int st.imports.length),
    ("max_depth", .int st.maxDepth),
    ("cyclomatic_complexity", .int st.complexity)]

/-- One `analysis['syntax_errors']` entry: line, column, message, text. -/
def diagData (lineno offset : Option Nat) (msg : String) (txt : Option String) : PyData :=
  .dict [("line", optNatData lineno), ("column", optNatData offset),
    ("message", .str msg), ("text", optStrData txt)]

/-- Python `len(s.splitlines())` (for `\n`-separated text; the other
Unicode line breaks Python also splits on do not occur here). -/
def pyLineCount (s : String) : Nat :=
  let cs := s.toList
  if cs = [] then 0
  else (cs.filter (fun c => c = '\n')).length +
    (if cs.getLast? = Option.some '\n' then 0 else 1)

/-- The `analysis` dict in its construction order, `update`d in place on a
successful parse, with `ast_dump` appended when requested. -/
def analysisData (sourcePath src : String) (valid : Bool) (errs : List PyData)
    (functions classes imports varsList : List PyData) (complexity : PyData)
    (astD : Option String) : PyData :=
  .dict ([("source_path", .str sourcePath),
    ("line_count", .int (pyLineCount src)),
    ("char_count", .int src.toList.length),
    ("syntax_valid", .bool valid),
    ("syntax_errors", .list errs),
    ("functions", .list functions),
    ("classes", .list classes),
    ("imports", .list imports),
    ("variables", .list varsList),
    ("complexity", complexity)] ++
    (match astD with
     | Option.some d => [("ast_dump", .str d)]
     | Option.none => []))

/-- External collaborators of `CodeAnalysisTool.execute`: the parser, the
filesystem, and `ast.dump`. -/
structure CodeAnalysisCtx where
  parse : String → ParseOutcome
  fileExists : String → Bool
  readFile : String → Except String String
  astDump : String → String

/-- The analysis of one source text (tools/code_tools.py lines 85-144): a
parse error is recorded as data — `syntax_valid` stays false, the
diagnostic joins `syntax_errors`, and the operation still succeeds; only a
non-`SyntaxError` exception from the parser fails the operation. -/
def analyzeSource (ctx : CodeAnalysisCtx) (src sourcePath sourceType : String)
    (includeAst : Bool) : ToolResult :=
  match ctx.parse src with
  | .ok body =>
      let st := visitBody {} body
      { success := true
        data := analysisData sourcePath src true [] (st.functions.map funcData)
          (st.classes.map classData) (st.imports.map importData)
          (st.vars.map varData) (complexityData st)
          (if includeAst then Option.some (ctx.astDump src) else Option.none)
        metadata := [("tool", .str "code_analyze"), ("source_type", .str sourceType)] }
  | .syntaxErr l c m t =>
      { success := true
        data := analysisData sourcePath src false [diagData l c m t] [] [] [] [] (.dict [])
          Option.none
        metadata := [("tool", .str "code_analyze"), ("source_type", .str sourceType)] }
  | .otherErr e =>
      { success := false, error := Option.some (.str ("Failed to parse code: " ++ e)) }

/-- `CodeAnalysisTool.execute` (tools/code_tools.py lines 59-150): both
sources absent is a failure; `if file_path:` is Python truthiness, so an
empty-string path falls through to the code branch (where an absent code
string hits the generic handler via `AttributeError`). -/
def codeAnalyzeExecute (ctx : CodeAnalysisCtx) (code filePath : Option String)
    (includeAst checkSyntax : Bool) : ToolResult :=
  if code = Option.none ∧ filePath = Option.none then
    { success := false
      error := Option.some (.str "Either 'code' or 'file_path' must be provided") }
  else
    let codeBranch : ToolResult :=
      match code with
      | Option.some s => analyzeSource ctx s "<string>" "string" includeAst
      | Option.none =>
          { success := false
            error := Option.some
              (.str "Code analysis failed: 'NoneType' object has no attribute 'splitlines'") }
    match filePath with
    | Option.some p =>
        if p = "" then codeBranch
        else if ctx.fileExists p = false then
          { success := false, error := Option.some (.str ("File not found: " ++ p)) }
        else
          match ctx.readFile p with
          | .error e =>
              { success := false
                error := Option.some (.str ("Code analysis failed: " ++ e)) }
          | .ok src => analyzeSource ctx src p "file" includeAst
    | Option.none => codeBranch

/-- `d[k]` on a dict payload. -/
def getKey : PyData → String → Option PyData
  | .dict kvs, k => kvs.lookup k
  | _, _ => Option.none

/-- Modelled from the Python standard library (not repository code):
`ast.parse` on the spec's two example inputs — `"def f(x): pass"` parses
to one function `f` with argument `x` and a `pass` body, `"def f(:"`
raises `SyntaxError` at line 1, offset 7. -/
def parseExamples : String → ParseOutcome := fun s =>
  if s = "def f(x): pass" then
    .ok [PyStmt.functionDef "f" 1 ["x"] [PyStmt.passStmt]]
  else if s = "def f(:" then
    .syntaxErr (Option.some 1) (Option.some 7) "invalid syntax" (Option.some "def f(:")
  else .otherErr "unmodelled input"

/-- The oracle bundle for the two examples (no file access involved). -/
def ctxExamples : CodeAnalysisCtx :=
  { parse := parseExamples
    fileExists := fun _ => false
    readFile := fun _ => .error "unmodelled"
    astDump := fun _ => "" }

/-! ### FileEditTool (tools/file_edit.py)

The execution is modelled with an explicit trace of filesystem side
effects, so that "writes a backup before performing any operation" and
"the extraction mode only reads" are statable. The external-editor branch
is an oracle (`editorRun`) contributing its own result and effects. -/

/-- A filesystem side effect of `FileEditTool.execute`. -/
inductive FSEffect where
  | wroteFile (path : String) (content : String)
  deriving DecidableEq, Repr

/-- A tool result paired with the ordered filesystem effects performed. -/
structure EditOutcome where
  result : ToolResult
  effects : List FSEffect

/-- External collaborators of `FileEditTool.execute`: existence check,
reads (used both for the backup copy and for `readlines`), write failures
(`Option.some` is the exception message), and the external editor. -/
structure FileEditCtx where
  fileExists : String → Bool
  readFile : String → Except String String
  writeErr : String → Option String
  editorRun : String → Option String → Option String → EditOutcome

/-- The declared parameters of file_edit
(tools/file_edit.py `_setup_parameters`, lines 25-57): `backup` is
optional with default `True`; `editor`, `content` and `line_range` are
optional with no default (`None`). -/
def fileEditParams : List ToolParameter := [
  ToolParameter.mk "path" .tstr "Path to the file to edit" true .vnone,
  ToolParameter.mk "editor" .tstr "Editor to use (default: system default)" false .vnone,
  ToolParameter.mk "content" .tstr "If provided, replace file content with this" false .vnone,
  ToolParameter.mk "line_range" .tstr "Line range to edit (e.g., '10-20')" false .vnone,
  ToolParameter.mk "backup" .tbool "Create backup before editing" false (.vbool true)]

/-- Python `f.readlines()`: split after each newline, keeping the
separators, without a trailing empty line. -/
def pyReadlinesAux : List Char → List Char → List String
  | [], acc => if acc = [] then [] else [⟨acc.reverse⟩]
  | ch :: rest, acc =>
      if ch = '\n' then (⟨(ch :: acc).reverse⟩ : String) :: pyReadlinesAux rest []
      else pyReadlinesAux rest (ch :: acc)

def pyReadlines (s : String) : List String := pyReadlinesAux s.toList []

/-- `line_range.split('-', 1)` when a dash is present. -/
def splitFirstDash (s : String) : Option (String × String) :=
  let cs := s.toList
  match cs.findIdx? (fun ch => ch = '-') with
  | Option.some i => Option.some (⟨cs.take i⟩, ⟨cs.drop (i + 1)⟩)
  | Option.none => Option.none

/-- `FileEditTool._edit_line_range` (lines 143-192) applied to the file's
content: parse "a-b" or "n" (a `ValueError` is the format failure), check
`1 ≤ start ≤ end ≤ line count` against the actual lines, and return the
1-indexed inclusive extraction — reading only, no write. -/
def fileEditLineRange (content path lineRange : String)
    (backupPath : Option String) : ToolResult :=
  let parsed : Option (Int × Int) :=
    match splitFirstDash lineRange with
    | Option.some (a, b) =>
        match pyStrToInt a, pyStrToInt b with
        | Option.some s, Option.some e => Option.some (s, e)
        | _, _ => Option.none
    | Option.none =>
        match pyStrToInt lineRange with
        | Option.some n => Option.some (n, n)
        | Option.none => Option.none
  match parsed with
  | Option.none =>
      { success := false
        error := Option.some (.str ("Invalid line range format: " ++ lineRange)) }
  | Option.some (s, e) =>
      let lines := pyReadlines content
      if s < 1 ∨ e > (lines.length : Int) ∨ s > e then
        { success := false
          error := Option.some (.str ("Invalid line range: " ++ lineRange ++
            " (file has " ++ toString lines.length ++ " lines)")) }
      else
        { success := true
          data := .dict [("action", .str "line_range_extracted"), ("file", .str path),
            ("backup", optStrData backupPath),
            ("line_range", .str (toString s ++ "-" ++ toString e)),
            ("content", .str (String.join ((lines.drop (s.toNat - 1)).take
              (e.toNat - (s.toNat - 1))))),
            ("total_lines", .int lines.length)] }

/-- `FileEditTool.execute` (lines 63-141): existence check; then — before
any editing operation — the backup copy to `<path>.backup` whenever
`backup` is true; then whole-content replacement when `content` is not
`None`, else the line-range extraction when `line_range` is truthy, else
the external editor. -/
def fileEditExecute (ctx : FileEditCtx) (path : String)
    (editor content lineRange : Option String) (backup : Bool) : EditOutcome :=
  if ctx.fileExists path = false then
    ⟨{ success := false, error := Option.some (.str ("File not found: " ++ path)) }, []⟩
  else
    let backupStep : Except ToolResult (Option String × List FSEffect) :=
      if backup then
        match ctx.readFile path with
        | .error e =>
            .error { success := false
                     error := Option.some (.str ("Failed to create backup: " ++ e)) }
        | .ok origContent =>
            .ok (Option.some (path ++ ".backup"),
              [FSEffect.wroteFile (path ++ ".backup") origContent])
      else .ok (Option.none, [])
    match backupStep with
    | .error res => ⟨res, []⟩
    | .ok (backupPath, eff0) =>
        match content with
        | Option.some newContent =>
            (match ctx.writeErr path with
            | Option.some e =>
                ⟨{ success := false
                   error := Option.some (.str ("Failed to write content: " ++ e)) }, eff0⟩
            | Option.none =>
                ⟨{ success := true
                   data := .dict [("action", .str "content_replaced"), ("file", .str path),
                     ("backup", optStrData backupPath),
                     ("size", .int newContent.toList.length)] },
                 eff0 ++ [FSEffect.wroteFile path newContent]⟩)
        | Option.none =>
            match lineRange with
            | Option.some lr =>
                if lr = "" then
                  let ed := ctx.editorRun path editor backupPath
                  ⟨ed.result, eff0 ++ ed.effects⟩
                else
                  (match ctx.readFile path with
                  | .error e =>
                      ⟨{ success := false
                         error := Option.some (.str ("Line range edit error: " ++ e)) },
                       eff0⟩
                  | .ok c => ⟨fileEditLineRange c path lr backupPath, eff0⟩)
            | Option.none =>
                let ed := ctx.editorRun path editor backupPath
                ⟨ed.result, eff0 ++ ed.effects⟩

/-! ### Theorems for the claims -/

/-- C1: `ToolRegistry.execute_tool` is total — in this embedding every
exception a tool or its validation can raise is an `Except.error`, and
`executeTool` nevertheless returns a plain `ToolResult` for every registry,
name and raw parameter mapping. An unregistered name yields
`success = false` with an error whose text ends in "not found"; an
exception from parameter validation or from the tool's `execute` yields
`success = false` carrying the exception's message. -/
theorem executeTool_never_raises (r : ToolRegistry) (name : String)
    (kwargs : List (String × PyVal)) :
    (r.getTool name = Option.none →
      r.executeTool name kwargs =
        { success := false
          error := Option.some (.str ("Tool '" ++ name ++ "' not found")) } ∧
      "not found".data <:+ ("Tool '" ++ name ++ "' not found").data) ∧
    (∀ tool e, r.getTool name = Option.some tool →
      validateParameters tool.parameters kwargs = .error e →
      (r.executeTool name kwargs).success = false ∧
      (r.executeTool name kwargs).error =
        Option.some (.str ("Tool execution failed: " ++ e.message))) ∧
    (∀ tool validated e, r.getTool name = Option.some tool →
      validateParameters tool.parameters kwargs = .ok validated →
      tool.exec validated = .error e →
      (r.executeTool name kwargs).success = false ∧
      (r.executeTool name kwargs).error =
        Option.some (.str ("Tool execution failed: " ++ e))) := by
  refine ⟨fun hnone => ⟨?_, ?_⟩, fun tool e hsome hval => ?_, fun tool validated e hsome hval hexec => ?_⟩
  · simp [ToolRegistry.executeTool, hnone]
  · have : ("Tool '" ++ name ++ "' not found").data =
        "Tool '".data ++ (name.data ++ "' not found".data) := by
      simp [String.data_append]
    rw [this]
    refine suffix_append_left _ (suffix_append_left _ ?_)
    decide
  · simp [ToolRegistry.executeTool, hsome, hval]
  · simp [ToolRegistry.executeTool, hsome, hval, hexec]

/-- C1 witness: the empty registry translates a lookup miss into the
"not found" failure result, and a registry holding a tool whose `execute`
raises translates the exception into a failure result. -/
theorem executeTool_never_raises_witness :
    ((ToolRegistry.mk [] []).executeTool "nonexistent" [] =
      { success := false
        error := Option.some (.str ("Tool '" ++ "nonexistent" ++ "' not found")) } ∧
      "not found".data <:+ ("Tool '" ++ "nonexistent" ++ "' not found").data) ∧
    ((ToolRegistry.mk [("boom", Tool.mk "boom" "test" "" [] (fun _ => .error "boom"))] []).executeTool
        "boom" []).success = false ∧
    ((ToolRegistry.mk [("boom", Tool.mk "boom" "test" "" [] (fun _ => .error "boom"))] []).executeTool
        "boom" []).error = Option.some (.str ("Tool execution failed: " ++ "boom")) :=
  ⟨(executeTool_never_raises (ToolRegistry.mk [] []) "nonexistent" []).1 rfl,
   (executeTool_never_raises
      (ToolRegistry.mk [("boom", Tool.mk "boom" "test" "" [] (fun _ => .error "boom"))] [])
      "boom" []).2.2 (Tool.mk "boom" "test" "" [] (fun _ => .error "boom")) [] "boom" rfl rfl rfl⟩

/-- C2: intent matching is first-match-wins over the ordered rule list:
whenever a rule matches the lowercased text and every rule before it does
not, detection returns that rule's tool and default parameters, whatever
rules follow it; and on the literal input "create file notes.txt" the full
pattern table selects file_write (so not file_read). -/
theorem detect_first_match_wins (text : String) (pre post : List IntentRule) (r : IntentRule)
    (hmatch : reSearch r.pattern (pyLower text) = true)
    (hpre : ∀ r' ∈ pre, reSearch r'.pattern (pyLower text) = false) :
    detectTool (pre ++ r :: post) text = Option.some (r.toolName, r.defaultParams) ∧
    detectTool allPatterns "create file notes.txt" = Option.some ("file_write", []) ∧
    detectTool allPatterns "create file notes.txt" ≠ Option.some ("file_read", []) := by
  refine ⟨?_, by decide, by decide⟩
  have hfind : (pre ++ r :: post).find? (fun ru => reSearch ru.pattern (pyLower text)) =
      Option.some r := by
    induction pre with
    | nil => simp [List.find?, hmatch]
    | cons a as ih =>
        have ha : reSearch a.pattern (pyLower text) = false := hpre a (by simp)
        simp only [List.cons_append, List.find?, ha]
        exact ih (fun r' hr' => hpre r' (by simp [hr']))
  simp [detectTool, hfind]

/-- C2 witness: with the rule table cut at the matching "create … file …
extension" rule — one non-matching rule before it, none after — detection
on "create file notes.txt" returns file_write. -/
theorem detect_first_match_wins_witness :
    detectTool
      ([rule0 (seqs [rchars "buat", dotStar, rchars "file", dotStar, extTail]) "file_write"] ++
        rule0 (seqs [rchars "create", dotStar, rchars "file", dotStar, extTail]) "file_write" :: [])
      "create file notes.txt" = Option.some ("file_write", []) :=
  (detect_first_match_wins "create file notes.txt"
    [rule0 (seqs [rchars "buat", dotStar, rchars "file", dotStar, extTail]) "file_write"] []
    (rule0 (seqs [rchars "create", dotStar, rchars "file", dotStar, extTail]) "file_write")
    (by decide) (by decide)).1

/-- C3 counterexample: `ToolParameter.validate` coerces a string for a
bool-typed parameter with Python's `bool(...)` constructor, not with the
truthy set of the claim: the string "false" validates to `True`, it
neither validates to `False` nor fails. -/
theorem boolParam_false_string_validates_to_true :
    (ToolParameter.mk "flag" .tbool "" true .vnone).validate (.vstr "false") =
      .ok (.vbool true) ∧
    (ToolParameter.mk "flag" .tbool "" true .vnone).validate (.vstr "false") ≠
      .ok (.vbool false) := by
  constructor
  · rfl
  · intro h
    simp [ToolParameter.validate, isinstance, pyCall, pyTruthy] at h

/-- C3 amended: for a bool-typed parameter a supplied string is coerced by
Python string truthiness — every non-empty string (the word "false"
included) validates to `True`, the empty string to `False`, and no string
ever fails validation for the bool kind. -/
theorem boolParam_string_coercion_is_truthiness (p : ToolParameter) (s : String)
    (hty : p.type = .tbool) :
    p.validate (.vstr s) = .ok (.vbool (s != "")) := by
  simp [ToolParameter.validate, hty, isinstance, pyCall, pyTruthy]

/-- C3 amended witness: the `capture_output` descriptor of shell_exec on
the string "false" validates to `True`. -/
theorem boolParam_string_coercion_is_truthiness_witness :
    (ToolParameter.mk "capture_output" .tbool "Capture command output" false
        (.vbool true)).validate (.vstr "false") = .ok (.vbool ("false" != "")) :=
  boolParam_string_coercion_is_truthiness
    (ToolParameter.mk "capture_output" .tbool "Capture command output" false (.vbool true))
    "false" rfl

/-- C7: the size check of file_read precedes the read — an existing
regular file over `max_size` produces a failure without the content ever
being read — and a successful read returns the file's entire content with
path, size, mime-type, modification-time and encoding metadata. -/
theorem fileRead_size_check_before_read (st : FileStat) (path encoding : String)
    (maxSize : Nat) (hex : st.pathExists = true) (hf : st.isFile = true) :
    (st.size > maxSize →
      (fileReadExecute st path encoding maxSize).result.success = false ∧
      (fileReadExecute st path encoding maxSize).readPerformed = false) ∧
    (∀ content, ¬ st.size > maxSize → st.readResult = .ok content →
      (fileReadExecute st path encoding maxSize).result =
        { success := true
          data := .str content
          metadata := [("path", .str path), ("size", .int st.size),
            ("mime_type", mimeData st.mimeType), ("modified", .float st.mtime),
            ("encoding", .str encoding)] } ∧
      (fileReadExecute st path encoding maxSize).readPerformed = true) := by
  constructor
  · intro hbig
    simp [fileReadExecute, hex, hf, hbig]
  · intro content hsmall hread
    simp [fileReadExecute, hex, hf, hsmall, hread]

/-- C7 witness: an 11-byte file against a 10-byte cap fails unread; the
same file against a 20-byte cap returns its full content and metadata. -/
theorem fileRead_size_check_before_read_witness :
    ((fileReadExecute (FileStat.mk true true 11 0 Option.none (.ok "0123456789A"))
        "big.txt" "utf-8" 10).result.success = false ∧
      (fileReadExecute (FileStat.mk true true 11 0 Option.none (.ok "0123456789A"))
        "big.txt" "utf-8" 10).readPerformed = false) ∧
    (fileReadExecute (FileStat.mk true true 11 0 Option.none (.ok "0123456789A"))
        "big.txt" "utf-8" 20).result =
      { success := true
        data := .str "0123456789A"
        metadata := [("path", .str "big.txt"), ("size", .int 11),
          ("mime_type", mimeData Option.none), ("modified", .float 0),
          ("encoding", .str "utf-8")] } :=
  ⟨(fileRead_size_check_before_read (FileStat.mk true true 11 0 Option.none (.ok "0123456789A"))
      "big.txt" "utf-8" 10 rfl rfl).1 (by decide),
   ((fileRead_size_check_before_read (FileStat.mk true true 11 0 Option.none (.ok "0123456789A"))
      "big.txt" "utf-8" 20 rfl rfl).2 "0123456789A" (by decide) rfl).1⟩

/-- C4 (code bug): shell_exec invoked with `capture_output=False` on a
command exiting non-zero returns `success := false` with `error := None` —
`error=stderr if returncode != 0 else None` reads the uncaptured (absent)
stderr — violating the envelope invariant that a failed result carries an
error message. -/
theorem shell_nonzero_exit_without_capture_loses_error :
    (shellExecute (fun _ => true) "/wd" 1 (ProcOutcome.done 1 Option.none Option.none)
        "false" Option.none 30 false true).result.success = false ∧
    (shellExecute (fun _ => true) "/wd" 1 (ProcOutcome.done 1 Option.none Option.none)
        "false" Option.none 30 false true).result.error = Option.none := by
  constructor <;> rfl

/-- C8: a completed process yields success exactly for exit code 0 and is
not killed; an expired timeout yields a failure carrying the dedicated
timeout message, kills the process, and its result differs from the result
of any completed process (so a timeout is never conflated with a non-zero
exit). -/
theorem shell_exit_code_and_timeout (dirOk : String → Bool) (processCwd : String)
    (pid : Int) (command : String) (timeout : ℚ) (capture shell : Bool) (rc : Int)
    (out err : Option String) :
    ((shellExecute dirOk processCwd pid (.done rc out err) command Option.none timeout
        capture shell).result.success = true ↔ rc = 0) ∧
    (shellExecute dirOk processCwd pid (.done rc out err) command Option.none timeout
        capture shell).killedProcess = false ∧
    (shellExecute dirOk processCwd pid .timeout command Option.none timeout
        capture shell).result.success = false ∧
    (shellExecute dirOk processCwd pid .timeout command Option.none timeout
        capture shell).result.error =
      Option.some (.str ("Command timed out after " ++ toString timeout ++ " seconds")) ∧
    (shellExecute dirOk processCwd pid .timeout command Option.none timeout
        capture shell).killedProcess = true ∧
    (shellExecute dirOk processCwd pid .timeout command Option.none timeout
        capture shell).result ≠
      (shellExecute dirOk processCwd pid (.done rc out err) command Option.none timeout
        capture shell).result := by
  refine ⟨?_, rfl, rfl, rfl, rfl, ?_⟩
  · simp [shellExecute, shellRun, beq_iff_eq]
  · intro h
    have hd := congrArg ToolResult.data h
    simp [shellExecute, shellRun] at hd

/-- C10: with `backup` not supplied, parameter validation fills in the
declared default `True`; executing on an existing file then writes
`<path>.backup` before any operation — the content-replacement trace
starts with the backup write, and the pure line-range extraction's only
filesystem effect is the backup write, which disappears only when
`backup=false` is passed explicitly. -/
theorem fileEdit_backup_default_and_first (ctx : FileEditCtx) (path lr newC origC : String)
    (hex : ctx.fileExists path = true) (hread : ctx.readFile path = .ok origC)
    (hwrite : ctx.writeErr path = Option.none) (hlr : lr ≠ "") :
    validateParameters fileEditParams [("path", .vstr path), ("line_range", .vstr lr)] =
      .ok [("path", .vstr path), ("editor", .vnone), ("content", .vnone),
        ("line_range", .vstr lr), ("backup", .vbool true)] ∧
    (fileEditExecute ctx path Option.none Option.none (Option.some lr) true).effects =
      [FSEffect.wroteFile (path ++ ".backup") origC] ∧
    (fileEditExecute ctx path Option.none (Option.some newC) Option.none true).effects =
      FSEffect.wroteFile (path ++ ".backup") origC :: [FSEffect.wroteFile path newC] ∧
    (fileEditExecute ctx path Option.none Option.none (Option.some lr) false).effects =
      [] := by
  refine ⟨?_, ?_, ?_, ?_⟩
  · simp [validateParameters, fileEditParams, ToolParameter.validate, lookupParam,
      List.lookup, isinstance]
  · simp [fileEditExecute, hex, hread, hlr]
  · simp [fileEditExecute, hex, hread, hwrite]
  · simp [fileEditExecute, hex, hread, hlr]

/-- C10 witness: on a two-line file, a line-range extraction with default
parameters writes exactly the backup copy, and with `backup := false`
writes nothing. -/
theorem fileEdit_backup_default_and_first_witness :
    validateParameters fileEditParams
      [("path", .vstr "notes.txt"), ("line_range", .vstr "1-2")] =
      .ok [("path", .vstr "notes.txt"), ("editor", .vnone), ("content", .vnone),
        ("line_range", .vstr "1-2"), ("backup", .vbool true)] ∧
    (fileEditExecute
      (FileEditCtx.mk (fun _ => true) (fun _ => .ok "line1\nline2\n")
        (fun _ => Option.none) (fun _ _ _ => EditOutcome.mk { success := true } []))
      "notes.txt" Option.none Option.none (Option.some "1-2") true).effects =
      [FSEffect.wroteFile ("notes.txt" ++ ".backup") "line1\nline2\n"] ∧
    (fileEditExecute
      (FileEditCtx.mk (fun _ => true) (fun _ => .ok "line1\nline2\n")
        (fun _ => Option.none) (fun _ _ _ => EditOutcome.mk { success := true } []))
      "notes.txt" Option.none Option.none (Option.some "1-2") false).effects = [] := by
  have h := fileEdit_backup_default_and_first
    (FileEditCtx.mk (fun _ => true) (fun _ => .ok "line1\nline2\n")
      (fun _ => Option.none) (fun _ _ _ => EditOutcome.mk { success := true } []))
    "notes.txt" "1-2" "new" "line1\nline2\n" rfl rfl rfl (by decide)
  exact ⟨h.1, h.2.1, h.2.2.2⟩

/-- C9: code_analyze treats a parse failure as data — for every parser
outcome that is a `SyntaxError`, the operation succeeds with
`syntax_valid = false` and a non-empty diagnostics list whose entry
carries line, column and message; and on the parsable example
"def f(x): pass" it reports `syntax_valid = true` with exactly one
function, named f with argument x. -/
theorem codeAnalyze_parse_failure_is_data (ctx : CodeAnalysisCtx) (s : String)
    (includeAst checkSyntax : Bool) (l c : Option Nat) (m : String) (t : Option String)
    (hparse : ctx.parse s = .syntaxErr l c m t) :
    ((codeAnalyzeExecute ctx (Option.some s) Option.none includeAst checkSyntax).success =
        true ∧
      getKey (codeAnalyzeExecute ctx (Option.some s) Option.none includeAst
        checkSyntax).data "syntax_valid" = Option.some (.bool false) ∧
      getKey (codeAnalyzeExecute ctx (Option.some s) Option.none includeAst
        checkSyntax).data "syntax_errors" = Option.some (.list [diagData l c m t]) ∧
      getKey (diagData l c m t) "line" = Option.some (optNatData l) ∧
      getKey (diagData l c m t) "column" = Option.some (optNatData c) ∧
      getKey (diagData l c m t) "message" = Option.some (.str m)) ∧
    ((codeAnalyzeExecute ctxExamples (Option.some "def f(x): pass") Option.none false
        true).success = true ∧
      getKey (codeAnalyzeExecute ctxExamples (Option.some "def f(x): pass") Option.none
        false true).data "syntax_valid" = Option.some (.bool true) ∧
      getKey (codeAnalyzeExecute ctxExamples (Option.some "def f(x): pass") Option.none
        false true).data "functions" =
        Option.some (.list [funcData (FuncInfo.mk "f" 1 ["x"] false)])) := by
  refine ⟨⟨?_, ?_, ?_, rfl, rfl, rfl⟩, rfl, rfl, rfl⟩ <;>
    simp [codeAnalyzeExecute, analyzeSource, hparse, analysisData, getKey, List.lookup]

/-- C9 witness: analyzing the unparsable text "def f(:" (SyntaxError at
line 1, offset 7) succeeds as an operation, reports `syntax_valid = false`
and one structured diagnostic. -/
theorem codeAnalyze_parse_failure_is_data_witness :
    (codeAnalyzeExecute ctxExamples (Option.some "def f(:") Option.none false
        true).success = true ∧
    getKey (codeAnalyzeExecute ctxExamples (Option.some "def f(:") Option.none false
      true).data "syntax_valid" = Option.some (.bool false) ∧
    getKey (codeAnalyzeExecute ctxExamples (Option.some "def f(:") Option.none false
      true).data "syntax_errors" =
      Option.some (.list [diagData (Option.some 1) (Option.some 7) "invalid syntax"
        (Option.some "def f(:")]) :=
  ⟨(codeAnalyze_parse_failure_is_data ctxExamples "def f(:" false true (Option.some 1)
      (Option.some 7) "invalid syntax" (Option.some "def f(:") rfl).1.1,
   (codeAnalyze_parse_failure_is_data ctxExamples "def f(:" false true (Option.some 1)
      (Option.some 7) "invalid syntax" (Option.some "def f(:") rfl).1.2.1,
   (codeAnalyze_parse_failure_is_data ctxExamples "def f(:" false true (Option.some 1)
      (Option.some 7) "invalid syntax" (Option.some "def f(:") rfl).1.2.2.1⟩

/-- A do-nothing `execute` used by the registry counterexample tools. -/
def okExec : List (String × PyVal) → Except String ToolResult :=
  fun _ => .ok { success := true }

/-- A tool named "x" of category "a". -/
def toolXa : Tool := { name := "x", category := "a", parameters := [], exec := okExec }

/-- A tool named "x" of category "b". -/
def toolXb : Tool := { name := "x", category := "b", parameters := [], exec := okExec }

/-- Well-formedness along a trace, the auxiliary induction behind C5. -/
theorem applyOps_preserves_WF {r : ToolRegistry} {ops : List RegOp} (hwf : RegWF r)
    (hsafe : SameCategoryOnOverwrite r ops) : RegWF (applyOps r ops) := by
  induction ops generalizing r with
  | nil => exact hwf
  | cons op ops ih =>
      obtain ⟨h1, h2⟩ := hsafe
      cases op with
      | reg t => exact ih (register_preserves_WF t hwf (fun t' hl => h1 t t' rfl hl)) h2
      | unreg n => exact ih (unregister_preserves_WF n hwf) h2

/-- C5 counterexample: registering a second tool with the same name "x"
but a different category leaves the stale name in the old category's
bucket, so the claimed index invariant fails for the two-step register
sequence — while the name slot itself was overwritten with the new tool. -/
theorem register_cross_category_breaks_index :
    ¬ catInvariant (((ToolRegistry.mk [] []).register toolXa).register toolXb) ∧
    (((ToolRegistry.mk [] []).register toolXa).register toolXb).tools.lookup "x" =
      Option.some toolXb := by
  constructor
  · intro h
    have hlook : (((ToolRegistry.mk [] []).register toolXa).register toolXb).categories.lookup
        "a" = Option.some ["x"] := by rfl
    obtain ⟨t, ht, hcat⟩ := h "a" ["x"] hlook "x" (by simp)
    have h2 : (((ToolRegistry.mk [] []).register toolXa).register toolXb).tools.lookup "x" =
        Option.some toolXb := by rfl
    rw [h2] at ht
    injection ht with ht
    rw [← ht] at hcat
    exact absurd hcat (by decide)
  · rfl

/-- C5 amended: the category index is consistent under every sequence of
register and unregister operations in which no register call replaces an
existing name with a tool of a different category (the counterexample
shows the different-category case breaks it); and a duplicate register
always overwrites the name slot with the new tool, without throwing. -/
theorem registry_category_index_conditional (r : ToolRegistry) (ops : List RegOp)
    (hwf : RegWF r) (hsafe : SameCategoryOnOverwrite r ops) :
    catInvariant (applyOps r ops) ∧
    (∀ t, ((applyOps r ops).register t).tools.lookup t.name = Option.some t) :=
  ⟨(applyOps_preserves_WF hwf hsafe).inv,
   fun t => by rw [register_tools_lookup, if_pos rfl]⟩

/-- The empty registry is well formed. -/
theorem emptyRegistry_WF : RegWF (ToolRegistry.mk [] []) := by
  refine ⟨by simp, ?_, ?_⟩
  · intro cat bucket h
    simp [List.lookup] at h
  · intro cat bucket h
    simp [List.lookup] at h

/-- The witness trace for C5 never overwrites a name with a different
category. -/
theorem witnessTrace_safe :
    SameCategoryOnOverwrite (ToolRegistry.mk [] [])
      [RegOp.reg toolXa, RegOp.unreg "x", RegOp.reg toolXb] := by
  refine ⟨?_, ?_, ?_, trivial⟩
  · intro t t' heq hl
    simp [List.lookup] at hl
  · intro t t' heq
    cases heq
  · intro t t' heq hl
    have h0 : applyOp (applyOp (ToolRegistry.mk [] []) (RegOp.reg toolXa))
        (RegOp.unreg "x") = ToolRegistry.mk [] [] := rfl
    rw [h0] at hl
    simp [List.lookup] at hl

/-- C5 witness: from the empty registry, register "x" in category "a",
unregister it, then register "x" in category "b" — the overwrite condition
holds along this trace and the index invariant survives it. -/
theorem registry_category_index_conditional_witness :
    catInvariant
      (applyOps (ToolRegistry.mk [] [])
        [RegOp.reg toolXa, RegOp.unreg "x", RegOp.reg toolXb]) :=
  (registry_category_index_conditional (ToolRegistry.mk [] [])
    [RegOp.reg toolXa, RegOp.unreg "x", RegOp.reg toolXb]
    emptyRegistry_WF witnessTrace_safe).1

/-- C6: validating an absent value is decided purely by the descriptor —
the declared default comes back unchanged when the parameter is optional,
and a required parameter fails with a `ToolValidationError` naming it.
(`validate` is a pure Lean function of the descriptor and the value, as the
source method is of `self` and `value`.) -/
theorem validate_absent_value (p : ToolParameter) :
    (p.required = false → p.validate .vnone = .ok p.default) ∧
    (p.required = true → p.validate .vnone =
      .error (.validationError ("Required parameter '" ++ p.name ++ "' is missing"))) := by
  constructor <;> intro h <;> simp [ToolParameter.validate, h]

/-- C6 witness: file_read's optional `encoding` descriptor yields its
default "utf-8" on an absent value, and its required `path` descriptor
fails naming the parameter. -/
theorem validate_absent_value_witness :
    (ToolParameter.mk "encoding" .tstr "File encoding" false (.vstr "utf-8")).validate .vnone =
      .ok (.vstr "utf-8") ∧
    (ToolParameter.mk "path" .tstr "Path to the file to read" true .vnone).validate .vnone =
      .error (.validationError ("Required parameter '" ++ "path" ++ "' is missing")) :=
  ⟨(validate_absent_value
      (ToolParameter.mk "encoding" .tstr "File encoding" false (.vstr "utf-8"))).1 rfl,
   (validate_absent_value
      (ToolParameter.mk "path" .tstr "Path to the file to read" true .vnone)).2 rfl⟩

end Cerebras
